import Mathlib

/-!
Shallow embedding of the fb-scraper repository (src/main.py) in Lean 4.

The embedding models the pure data transformations of the scraper:

* the per-block post extraction pipeline of FacebookScraper._extract_posts
  (comment rejection, body extraction and cleaning, link resolution,
  media resolution, timestamp resolution, post assembly);
* the feed emission ordering and per-entry media embedding of
  generate_rss;
* the cache round trip of FacebookScraper.save_cache / load_cache.

DOM reads (query_selector, get_attribute, inner_text) are modelled as
fields of a Block record holding the values the code observes; the
external yt-dlp call is modelled as a data field holding its output
lines (or none for a raised exception).  Python strings are modelled as
Lean strings over their characters; the Python predicates str.isdigit,
str.lower, \d, \s and \w are modelled at ASCII precision (every string
appearing in a theorem below is ASCII).
-/

namespace FBScraper

/-! ### Python string primitives -/

/-- ASCII model of the Python whitespace class used by str.strip and
str.split with no arguments. -/
def isPySpace (c : Char) : Bool :=
  c = ' ' || c = '\t' || c = '\n' || c = '\r' || c = '\x0b' || c = '\x0c'

/-- ASCII model of the digit class used by str.isdigit and the regex
class backslash-d. -/
def isPyDigit (c : Char) : Bool :=
  '0' ≤ c && c ≤ '9'

/-- ASCII model of the regex word-character class backslash-w
(letters, digits, underscore). -/
def isPyWord (c : Char) : Bool :=
  c.isAlpha || isPyDigit c || c = '_'

/-- Python str.strip() with no argument: remove leading and trailing
whitespace. -/
def pyStrip (s : String) : String :=
  ⟨((s.toList.dropWhile isPySpace).reverse.dropWhile isPySpace).reverse⟩

/-- Helper for pyStrip and the whitespace splitter: split a character
list on whitespace runs, accumulating the current word reversed. -/
def wsSplitAux : List Char → List Char → List (List Char)
  | [], acc => if acc.isEmpty then [] else [acc.reverse]
  | c :: t, acc =>
    if isPySpace c then
      if acc.isEmpty then wsSplitAux t [] else acc.reverse :: wsSplitAux t []
    else wsSplitAux t (c :: acc)

/-- Python str.split() with no argument: the list of maximal
non-whitespace runs. -/
def pySplitWs (s : String) : List String :=
  (wsSplitAux s.toList []).map fun l => ⟨l⟩

/-- Python str.startswith, on characters. -/
def pyStartsWith (s pre : String) : Bool :=
  pre.toList.isPrefixOf s.toList

/-- Split a character list on a separator character, keeping empty
segments, as Python str.split with an explicit separator does. -/
def splitChar (c : Char) : List Char → List (List Char)
  | [] => [[]]
  | x :: t =>
    if x = c then [] :: splitChar c t
    else
      match splitChar c t with
      | h :: rest => (x :: h) :: rest
      | [] => [[x]]

/-- Python s.split with a one-character separator. -/
def pySplitOn (s : String) (c : Char) : List String :=
  (splitChar c s.toList).map fun l => ⟨l⟩

/-- Python sep.join(parts). -/
def joinSep (sep : String) : List String → String
  | [] => ""
  | a :: t => t.foldl (fun acc x => acc ++ sep ++ x) a

/-- The whitespace normalization idiom of the source,
a single space joining str.split() of the text. -/
def pyNormalize (s : String) : String :=
  joinSep " " (pySplitWs s)

/-- Python str.lower(), ASCII model. -/
def pyLower (s : String) : String :=
  ⟨s.toList.map Char.toLower⟩

/-- Helper for pyFind: scan the haystack left to right for the first
position where the needle is a prefix. -/
def findSubAux (sub : List Char) : List Char → Nat → Option Nat
  | [], i => if sub.isPrefixOf ([] : List Char) then some i else none
  | c :: t, i => if sub.isPrefixOf (c :: t) then some i else findSubAux sub t (i + 1)

/-- Python str.find: index of the first occurrence of sub in hay, none
standing for the -1 result. -/
def pyFind (hay sub : String) : Option Nat :=
  findSubAux sub.toList hay.toList 0

/-- Python substring membership, the in operator on strings. -/
def pyContains (hay sub : String) : Bool :=
  (pyFind hay sub).isSome

/-- Python s[:n] on character counts. -/
def pyTake (n : Nat) (s : String) : String :=
  ⟨s.toList.take n⟩

/-- Python s[n:] on character counts. -/
def pyDropChars (n : Nat) (s : String) : String :=
  ⟨s.toList.drop n⟩

/-- Python truthiness of an optional string: None and the empty string
are falsy. -/
def pyTruthyO : Option String → Bool
  | none => false
  | some s => !(s == "")

/-- Python int(str): strip whitespace, optional sign, at least one
digit.  Returns none where int() raises ValueError. -/
def pyInt (s : String) : Option Int :=
  let cs := (s.toList.dropWhile isPySpace).reverse.dropWhile isPySpace |>.reverse
  let (neg, ds) :=
    match cs with
    | '-' :: t => (true, t)
    | '+' :: t => (false, t)
    | t => (false, t)
  if ds.isEmpty || !(ds.all isPyDigit) then none
  else
    let v : Nat := ds.foldl (fun acc c => 10 * acc + (c.toNat - 48)) 0
    some (if neg then -(v : Int) else (v : Int))

/-! ### Data model: the DOM observations of one content block

A Block holds the values the extraction code reads from one
div[role="article"] element: presence of the reply affordance, the
accessible label, the texts of the message-selector candidates in
selector order (none where the selector matched nothing or a too-small
container), the full inner text, link hrefs, and the media observations
(video element, extracted video id, yt-dlp output lines with none for a
raised exception, the src and poster attributes, feed-image and
photo-link image sources, and the attributes of every img element in
document order).  Null-href anchors in the facebook.com fallback list
are not represented: the code ignores them identically to absent
anchors. -/

structure ImgEl where
  src : Option String
  width : Option String
  height : Option String
  insideSvg : Bool
deriving DecidableEq, Repr

structure Block where
  hasReplyIndicator : Bool
  ariaLabel : Option String
  msgTexts : List (Option String)
  fullText : String
  primaryLinkHref : Option (Option String)
  fbLinkHrefs : List String
  hasVideoElement : Bool
  videoId : Option String
  ytdlpLines : Option (List String)
  videoSrc : Option String
  poster : Option String
  feedImageSrc : Option String
  photoImgSrc : Option String
  imgs : List ImgEl
deriving DecidableEq, Repr

/-- The canonical post record assembled by _extract_posts, polymorphic
in the timestamp representation (Int seconds for the in-run pipeline,
a calendar datetime for the cache round trip). -/
structure Post (τ : Type) where
  title : String
  description : String
  link : String
  guid : String
  pubDate : τ
  image : Option String
  video : Option String
  media_type : Option String
deriving DecidableEq, Repr

/-! ### Post Classifier and Text Extractor (main.py lines 216-349) -/

/-- The footer markers of the fallback body extraction, in source
order. -/
def footerMarkers : List String :=
  ["All reactions:", "View more comments", "Write a comment",
   "Most relevant", "View all", "replies", "shares", "comments"]

/-- The UI-noise phrases dropped during line cleaning. -/
def skipPhrases : List String :=
  ["Like", "Comment", "Share", "Send", "Write a comment...",
   "Shares", "Comments", "Reply", "Follow", "Join"]

/-- Earliest occurrence of any footer marker in the text, defaulting to
the text length (main.py lines 307-311). -/
def cutoffIndex (t : String) : Nat :=
  footerMarkers.foldl
    (fun acc m =>
      match pyFind t m with
      | some idx => if idx < acc then idx else acc
      | none => acc)
    t.length

/-- Line cleaning of the fallback body extraction (main.py lines
317-339): strip each line, drop empties, UI-noise phrases, and short
digit-bearing timestamp artifacts. -/
def cleanLines (lines : List String) : List String :=
  lines.filterMap fun line =>
    let ls := pyStrip line
    if ls = "" then none
    else if skipPhrases.contains ls then none
    else if ls.length < 5 && ls.toList.any isPyDigit then none
    else some ls

/-- The fallback body extraction: truncate at the earliest footer
marker, clean the lines, rejoin (main.py lines 292-339). -/
def fallbackExtract (fullText : String) : String :=
  let t := pyTake (cutoffIndex fullText) fullText
  joinSep "\n" (cleanLines (pySplitOn t '\n'))

/-- The message-selector loop (main.py lines 278-287): first candidate
whose stripped text is longer than 10 characters. -/
def firstMsg (l : List (Option String)) : Option String :=
  l.findSome? fun o =>
    match o with
    | some t => if 10 < (pyStrip t).length then some t else none
    | none => none

/-- Body derivation for one block: selector result or fallback, then
whitespace normalization and the leading page-name strip (main.py
lines 278-346). -/
def extractBody (b : Block) (pageName : String) : String :=
  let t0 :=
    match firstMsg b.msgTexts with
    | some t => t
    | none => fallbackExtract b.fullText
  let t1 := pyNormalize t0
  if pyStartsWith (pyLower t1) (pyLower pageName) then
    pyStrip (pyDropChars pageName.length t1)
  else t1

/-! ### Link resolution (main.py lines 351-368) -/

/-- Link resolution: the primary selector wins if its element exists
(even with a null href); otherwise the first facebook.com anchor whose
href mentions /posts/ or /permalink.php.  A relative href gets the
facebook.com origin prepended; the query string is dropped. -/
def resolveLink (b : Block) : Option String :=
  let chosen : Option (Option String) :=
    match b.primaryLinkHref with
    | some h => some h
    | none =>
      match b.fbLinkHrefs.find? (fun h => pyContains h "/posts/" || pyContains h "/permalink.php") with
      | some h => some (some h)
      | none => none
  match chosen with
  | some (some href) =>
    let href2 := if pyStartsWith href "/" then "https://www.facebook.com" ++ href else href
    some ⟨href2.toList.takeWhile (fun ch => ch != '?')⟩
  | some none => none
  | none => none

/-! ### Media Resolver (main.py lines 370-511) -/

structure MediaRes where
  image : Option String
  video : Option String
  mtype : Option String
deriving DecidableEq, Repr

/-- Selection of a video URL from the yt-dlp output lines (main.py
lines 414-426): first http line containing .mp4, else the first line
when it starts with http. -/
def ytdlpUrl (lines : List String) : Option String :=
  match lines.find? (fun u => pyStartsWith u "http" && pyContains u ".mp4") with
  | some u => some u
  | none =>
    match lines with
    | u :: _ => if pyStartsWith u "http" then some u else none
    | [] => none

/-- Video URL resolution (main.py lines 381-441): with a video id,
yt-dlp output or the watch permalink fallback; without one, the video
element src when it is http and not a blob: URL. -/
def videoUrlOf (b : Block) : Option String :=
  let v1 : Option String :=
    match b.videoId with
    | some vid =>
      let fromYt : Option String :=
        match b.ytdlpLines with
        | some ls => ytdlpUrl ls
        | none => none
      some (fromYt.getD ("https://www.facebook.com/watch/?v=" ++ vid))
    | none => none
  match v1 with
  | some v => some v
  | none =>
    match b.videoSrc with
    | some src => if !(pyStartsWith src "blob:") && pyStartsWith src "http" then some src else none
    | none => none

/-- Video thumbnail resolution (main.py lines 443-451): the poster
attribute when it starts with http, else the feed-image source. -/
def videoThumbOf (b : Block) : Option String :=
  match b.poster with
  | some p => if pyStartsWith p "http" then some p else b.feedImageSrc
  | none => b.feedImageSrc

/-- The noise-pattern denylist of the image scan, in source order. -/
def noisePatterns : List String :=
  ["emoji.php", "rsrc.php", "static.xx", "static.fb",
   "p50x50", "s100x100", "s80x80", "s64x64", "s40x40",
   "s32x32", "cp0_dst-jpg_s", "_s80x80",
   "data:image/svg", "platform-lookaside",
   "safe_image.php"]

/-- The declared-dimension filter of the image scan (main.py lines
494-502): skip only when both attributes are truthy, both parse as
ints, and either is below 100; a parse failure is swallowed. -/
def sizeOk (im : ImgEl) : Bool :=
  match im.width, im.height with
  | some w, some h =>
    if !(w == "") && !(h == "") then
      match pyInt w, pyInt h with
      | some wv, some hv => !(wv < 100 || hv < 100)
      | _, _ => true
    else true
  | _, _ => true

/-- The acceptance predicate of the strategy-3 image scan (main.py
lines 474-511): http source, no denylisted pattern, acceptable
declared dimensions, not nested in an SVG. -/
def goodImg (im : ImgEl) : Bool :=
  match im.src with
  | none => false
  | some s =>
    pyStartsWith s "http" &&
    !(noisePatterns.any (fun p => pyContains s p)) &&
    sizeOk im &&
    !im.insideSvg

/-- Strategy 3: first acceptable image of the block-wide scan. -/
def imageS3 (b : Block) : MediaRes :=
  match (b.imgs.find? goodImg).bind (fun im => im.src) with
  | some s => ⟨some s, none, some "image"⟩
  | none => ⟨none, none, none⟩

/-- Strategy 2: image nested inside a photo-permalink anchor. -/
def imageS2 (b : Block) : MediaRes :=
  match b.photoImgSrc with
  | some s => if pyStartsWith s "http" then ⟨some s, none, some "image"⟩ else imageS3 b
  | none => imageS3 b

/-- Strategy 1: the feed-image marker. -/
def imageS1 (b : Block) : MediaRes :=
  match b.feedImageSrc with
  | some s => if pyStartsWith s "http" then ⟨some s, none, some "image"⟩ else imageS2 b
  | none => imageS2 b

/-- Full media resolution: the video path claims the block whenever a
video element exists; the image strategies run only otherwise. -/
def resolveMedia (b : Block) : MediaRes :=
  if b.hasVideoElement then ⟨videoThumbOf b, videoUrlOf b, some "video"⟩
  else imageS1 b

/-! ### Timestamp Resolver (main.py lines 516-565)

The relative-time regexes are embedded as explicit matchers.  Each
pattern is digits, optional whitespace, a unit letter, an optional
suffix alternative, and a word boundary; the matchers enumerate the
alternative expansions of each optional suffix group in regex
backtracking order.  Since every alternative yields the same captured
number, a position matches exactly when some alternative (or the empty
suffix) is followed by a word boundary. -/

/-- Word boundary after a word character: next character absent or not
a word character. -/
def boundaryOk : List Char → Bool
  | [] => true
  | c :: _ => !isPyWord c

/-- Case-insensitive prefix test (the regexes run with
re.IGNORECASE). -/
def ciStarts (pre cs : List Char) : Bool :=
  (pre.map Char.toLower).isPrefixOf (cs.map Char.toLower)

/-- Does some suffix alternative (or the empty suffix) followed by a
word boundary match here? -/
def suffixBoundary (sufs : List (List Char)) (cs : List Char) : Bool :=
  sufs.any (fun suf => ciStarts suf cs && boundaryOk (cs.drop suf.length)) || boundaryOk cs

/-- Numeric value of a digit run. -/
def digitsVal (ds : List Char) : Nat :=
  ds.foldl (fun acc c => 10 * acc + (c.toNat - 48)) 0

/-- Attempt a relative-time match anchored at this position: maximal
digit run, optional whitespace, the unit letter, a suffix alternative
with word boundary.  Returns the captured number. -/
def matchRelAt (unit : Char) (sufs : List (List Char)) (cs : List Char) : Option Nat :=
  let ds := cs.takeWhile isPyDigit
  if ds.isEmpty then none
  else
    match (cs.dropWhile isPyDigit).dropWhile isPySpace with
    | [] => none
    | c :: rest =>
      if c.toLower = unit then
        if suffixBoundary sufs rest then some (digitsVal ds) else none
      else none

/-- re.search: leftmost position where the pattern matches. -/
def searchRel (unit : Char) (sufs : List (List Char)) : List Char → Option Nat
  | [] => none
  | c :: t =>
    match matchRelAt unit sufs (c :: t) with
    | some v => some v
    | none => searchRel unit sufs t

/-- The days pattern, digits whitespace d(ays?)? with boundary. -/
def searchDays (text : String) : Option Nat :=
  searchRel 'd' [['a', 'y', 's'], ['a', 'y']] text.toList

/-- The hours pattern, digits whitespace h(rs?|ours?)? with boundary. -/
def searchHours (text : String) : Option Nat :=
  searchRel 'h' [['r', 's'], ['r'], ['o', 'u', 'r', 's'], ['o', 'u', 'r']] text.toList

/-- The minutes pattern, digits whitespace m(ins?|inutes?)? with
boundary. -/
def searchMinutes (text : String) : Option Nat :=
  searchRel 'm' [['i', 'n', 's'], ['i', 'n'], ['i', 'n', 'u', 't', 'e', 's'], ['i', 'n', 'u', 't', 'e']] text.toList

/-- The seconds pattern, digits whitespace s(ecs?|econds?)? with
boundary. -/
def searchSeconds (text : String) : Option Nat :=
  searchRel 's' [['e', 'c', 's'], ['e', 'c'], ['e', 'c', 'o', 'n', 'd', 's'], ['e', 'c', 'o', 'n', 'd']] text.toList

/-- The literal Just now pattern, case-insensitive substring. -/
def hasJustNow (text : String) : Bool :=
  pyContains (pyLower text) "just now"

/-- The pattern-priority loop of the resolver (main.py lines 526-553):
first matching pattern in the fixed order days, hours, minutes,
seconds, Just now; result is the timedelta in seconds. -/
def relTimeDelta (text : String) : Option Int :=
  match searchDays text with
  | some v => some (86400 * (v : Int))
  | none =>
    match searchHours text with
    | some v => some (3600 * (v : Int))
    | none =>
      match searchMinutes text with
      | some v => some (60 * (v : Int))
      | none =>
        match searchSeconds text with
        | some v => some ((v : Int))
        | none => if hasJustNow text then some 0 else none

/-- publishedAt resolution: capture time minus the parsed delta, or the
positional fallback of capture time minus the index in days (main.py
lines 534-565).  Times are Int seconds. -/
def resolveTimestamp (text : String) (i : Nat) (cap : Int) : Int :=
  match relTimeDelta text with
  | some d => cap - d
  | none => cap - 86400 * (i : Int)

/-! ### Post Assembler (main.py lines 216-598) -/

/-- The per-block pipeline: comment rejection, body extraction, the
minimum-length gate, then assembly of the post record (main.py lines
216-583).  i is the enumeration index of the block among the first
max_posts candidates; cap the capture time in Int seconds. -/
def processBlock (pageUrl pageName : String) (i : Nat) (cap : Int) (b : Block) : Option (Post Int) :=
  if b.hasReplyIndicator then none
  else if (match b.ariaLabel with
           | some l => pyContains (pyLower l) "comment"
           | none => false) then none
  else if (extractBody b pageName).length < 5 then none
  else
    some {
      title :=
        if 80 < (extractBody b pageName).length then
          pyTake 80 (extractBody b pageName) ++ "..."
        else extractBody b pageName
      description := extractBody b pageName
      link := (resolveLink b).getD pageUrl
      guid := (resolveLink b).getD (pageUrl ++ "#" ++ toString i ++ "_" ++ toString cap)
      pubDate := resolveTimestamp b.fullText i cap
      image := (resolveMedia b).image
      video := (resolveMedia b).video
      media_type := (resolveMedia b).mtype }

/-- The extraction loop over the first max_posts candidate blocks,
keeping the enumeration index of every candidate (comments included)
for the guid and the timestamp fallback. -/
def extract_posts (pageUrl pageName : String) (cap : Int) (maxPosts : Nat) (blocks : List Block) : List (Post Int) :=
  ((blocks.take maxPosts).enum).filterMap fun ib => processBlock pageUrl pageName ib.1 cap ib.2

/-! ### Feed Emitter (main.py lines 623-679)

The feed-level metadata and the XML serialization are external
(feedgen); the embedding models the entry list: its order and the
per-entry enclosure and description markup. -/

structure Enclosure where
  url : String
  mime : String
  length : String
deriving DecidableEq, Repr

structure Entry where
  guid : String
  title : String
  description : String
  link : String
  pubDate : Int
  enclosure : Option Enclosure
deriving DecidableEq, Repr

/-- Python sorted(posts, key=pubDate, reverse=True): a stable
descending sort on the publication date. -/
def pySortedDesc (ps : List (Post Int)) : List (Post Int) :=
  ps.mergeSort fun a b => b.pubDate ≤ a.pubDate

/-- Per-entry rendering (main.py lines 640-673): base fields, then the
media embedding rules keyed on media_type and the truthiness of the
media URLs. -/
def renderEntry (p : Post Int) : Entry :=
  let e0 : Entry :=
    { guid := p.guid, title := p.title, description := p.description,
      link := p.link, pubDate := p.pubDate, enclosure := none }
  if (p.media_type == some "video") && pyTruthyO p.video then
    let v := match p.video with | some s => s | none => ""
    if pyContains v "facebook.com/watch" then
      let e1 :=
        if pyTruthyO p.image then
          { e0 with enclosure := some ⟨p.image.getD "", "image/jpeg", "0"⟩ }
        else e0
      let e2 :=
        { e1 with description :=
            e1.description ++ "<br/><br/>🎥 <a href=\"" ++ v ++ "\">Watch Video on Facebook</a>" }
      if pyTruthyO p.image then
        { e2 with description :=
            e2.description ++ "<br/><br/><a href=\"" ++ v ++ "\"><img src=\"" ++ p.image.getD ""
              ++ "\" style=\"max-width:100%\" alt=\"Video thumbnail\"/></a>" }
      else e2
    else
      let mime := if pyContains v ".m3u8" then "application/x-mpegURL" else "video/mp4"
      let e1 := { e0 with enclosure := some ⟨v, mime, "0"⟩ }
      let poster := if pyTruthyO p.image then " poster=\"" ++ p.image.getD "" ++ "\"" else ""
      { e1 with description :=
          e1.description ++ "<br/><br/><video controls width=\"100%\"" ++ poster
            ++ "><source src=\"" ++ v ++ "\" type=\"" ++ mime
            ++ "\">Your browser does not support the video tag.</video>" }
  else if (p.media_type == some "image") && pyTruthyO p.image then
    let img := match p.image with | some s => s | none => ""
    { e0 with enclosure := some ⟨img, "image/jpeg", "0"⟩
              description := p.description ++ "<br/><br/><img src=\"" ++ img ++ "\" style=\"max-width:100%\"/>" }
  else e0

/-- The entry list of the emitted feed: posts sorted by publication
date descending, each rendered. -/
def generate_rss (posts : List (Post Int)) : List Entry :=
  (pySortedDesc posts).map renderEntry

/-! ### Cache persistence (main.py lines 600-621)

save_cache serializes the post list to JSON with pubDate replaced by
datetime.isoformat(); load_cache parses the JSON back and replaces
pubDate by datetime.fromisoformat() of the stored string, returning the
empty list when the file is missing or any step raises.

Datetimes are modelled as calendar records with a fixed-offset
timezone; a parsed offset-free string is represented with the zero
offset (the code itself only ever produces and reloads UTC datetimes).
The fromisoformat model covers the strict pre-3.11 grammar that
isoformat emits: full date, optional single-character separator plus
full time, optional 3- or 6-digit fraction, optional hh:mm offset. -/

structure PyDateTime where
  year : Nat
  month : Nat
  day : Nat
  hour : Nat
  minute : Nat
  second : Nat
  microsecond : Nat
  tzNeg : Bool
  tzHour : Nat
  tzMin : Nat
deriving DecidableEq, Repr

/-- Fixed-width two-digit decimal field, as printed by isoformat. -/
def pad2 (n : Nat) : String :=
  ⟨[Nat.digitChar (n / 10 % 10), Nat.digitChar (n % 10)]⟩

/-- Fixed-width four-digit decimal field. -/
def pad4 (n : Nat) : String :=
  ⟨[Nat.digitChar (n / 1000 % 10), Nat.digitChar (n / 100 % 10),
    Nat.digitChar (n / 10 % 10), Nat.digitChar (n % 10)]⟩

/-- Fixed-width six-digit decimal field. -/
def pad6 (n : Nat) : String :=
  ⟨[Nat.digitChar (n / 100000 % 10), Nat.digitChar (n / 10000 % 10),
    Nat.digitChar (n / 1000 % 10), Nat.digitChar (n / 100 % 10),
    Nat.digitChar (n / 10 % 10), Nat.digitChar (n % 10)]⟩

/-- datetime.isoformat() of an aware datetime:
YYYY-MM-DDTHH:MM:SS[.ffffff]+hh:mm, the fraction omitted when the
microsecond field is zero. -/
def isoformat (dt : PyDateTime) : String :=
  pad4 dt.year ++ "-" ++ pad2 dt.month ++ "-" ++ pad2 dt.day ++ "T"
    ++ pad2 dt.hour ++ ":" ++ pad2 dt.minute ++ ":" ++ pad2 dt.second
    ++ (if dt.microsecond == 0 then "" else "." ++ pad6 dt.microsecond)
    ++ (if dt.tzNeg then "-" else "+") ++ pad2 dt.tzHour ++ ":" ++ pad2 dt.tzMin

/-- Decimal value of a digit character, none otherwise. -/
def digitVal (c : Char) : Option Nat :=
  if isPyDigit c then some (c.toNat - 48) else none

/-- Read an exactly-two-digit field. -/
def read2 : List Char → Option (Nat × List Char)
  | a :: b :: rest =>
    match digitVal a, digitVal b with
    | some x, some y => some (10 * x + y, rest)
    | _, _ => none
  | _ => none

/-- Read an exactly-four-digit field. -/
def read4 : List Char → Option (Nat × List Char)
  | a :: b :: c :: d :: rest =>
    match digitVal a, digitVal b, digitVal c, digitVal d with
    | some w, some x, some y, some z => some (1000 * w + 100 * x + 10 * y + z, rest)
    | _, _, _, _ => none
  | _ => none

/-- Require one literal character. -/
def expectCh (c : Char) : List Char → Option (List Char)
  | x :: rest => if x = c then some rest else none
  | [] => none

/-- Parse the optional microsecond fraction: a dot followed by exactly
3 or 6 digits. -/
def readFrac : List Char → Option (Nat × List Char)
  | '.' :: r =>
    let ds := r.takeWhile isPyDigit
    if ds.length == 6 then some (digitsVal ds, r.drop 6)
    else if ds.length == 3 then some (1000 * digitsVal ds, r.drop 3)
    else none
  | r => some (0, r)

/-- Parse the optional trailing utc offset: sign, hh, colon, mm, end of
input.  An absent offset yields the zero offset (naive datetimes are
conflated with UTC; see the section comment). -/
def readOffset : List Char → Option (Bool × Nat × Nat)
  | [] => some (false, 0, 0)
  | c :: r =>
    if c = '+' || c = '-' then
      match read2 r with
      | some (th, r2) =>
        match expectCh ':' r2 with
        | some r3 =>
          match read2 r3 with
          | some (tm, r4) => if r4.isEmpty then some (c = '-', th, tm) else none
          | none => none
        | none => none
      | none => none
    else none

/-- datetime.fromisoformat model: full date, then either end of input
(midnight) or a one-character separator and a full time with optional
fraction and offset.  none stands for a raised ValueError. -/
def fromIso (s : String) : Option PyDateTime := do
  let cs := s.toList
  let (y, r1) ← read4 cs
  let r2 ← expectCh '-' r1
  let (mo, r3) ← read2 r2
  let r4 ← expectCh '-' r3
  let (d, r5) ← read2 r4
  match r5 with
  | [] => some ⟨y, mo, d, 0, 0, 0, 0, false, 0, 0⟩
  | _ :: r6 =>
    let (h, r7) ← read2 r6
    let r8 ← expectCh ':' r7
    let (mi, r9) ← read2 r8
    let r10 ← expectCh ':' r9
    let (se, r11) ← read2 r10
    let (micro, r12) ← readFrac r11
    let (neg, th, tm) ← readOffset r12
    some ⟨y, mo, d, h, mi, se, micro, neg, th, tm⟩

/-! ### The JSON layer of the cache -/

/-- Parsed JSON values as Python sees them after json.load.  An object
is an association list; parsed objects have distinct keys (json.load
keeps the last duplicate), and lookup is modelled last-wins
accordingly. -/
inductive PyValue where
  | null
  | bool (b : Bool)
  | num (n : Int)
  | str (s : String)
  | arr (xs : List PyValue)
  | obj (fields : List (String × PyValue))

/-- The exceptions the load path can raise. -/
inductive PyErr where
  | typeError
  | keyError
  | valueError
deriving DecidableEq, Repr

/-- A value of the mutated record dict after load: either an untouched
JSON value or the datetime written over pubDate. -/
inductive LoadedVal where
  | v (x : PyValue)
  | dt (d : PyDateTime)

/-- One loaded cache record: the record dict after the pubDate
mutation. -/
def LoadedRec := List (String × LoadedVal)

/-- Python dict lookup on the association-list model: last binding
wins. -/
def dictGetLast (fields : List (String × PyValue)) (k : String) : Option PyValue :=
  (fields.reverse.find? (fun kv => kv.1 == k)).map (fun kv => kv.2)

/-- Iteration as the for loop observes it: a list yields its elements,
a string its characters, a dict its keys; other values raise
TypeError. -/
def pyIterate : PyValue → Except PyErr (List PyValue)
  | .arr xs => .ok xs
  | .str s => .ok (s.toList.map fun c => .str ⟨[c]⟩)
  | .obj fields => .ok (fields.map fun kv => .str kv.1)
  | _ => .error .typeError

/-- Processing of one record (main.py line 616): index the dict at
pubDate (KeyError when absent, TypeError when the item is not a dict),
fromisoformat the string (TypeError on a non-string, ValueError on a
bad string), and write the datetime back over the key. -/
def loadOne : PyValue → Except PyErr LoadedRec
  | .obj fields =>
    match dictGetLast fields "pubDate" with
    | none => .error .keyError
    | some v =>
      match v with
      | .str s =>
        match fromIso s with
        | some d => .ok (fields.map fun kv =>
            if kv.1 == "pubDate" then (kv.1, LoadedVal.dt d) else (kv.1, LoadedVal.v kv.2))
        | none => .error .valueError
      | _ => .error .typeError
  | _ => .error .typeError

/-- The body of the with-open block of load_cache: iterate the parsed
value and process every record.  Python returns the mutated container
itself; the model returns the record list (for a non-empty non-list
iterable every item processing raises, so the two only differ on empty
non-list containers, which no claim touches). -/
def loadCacheBody (v : PyValue) : Except PyErr (List LoadedRec) := do
  let items ← pyIterate v
  items.mapM loadOne

/-- The states a cache file can be in, as load_cache distinguishes
them: absent, present but not JSON-parseable, or holding a parsed
value. -/
inductive FileState where
  | missing
  | badJson
  | json (v : PyValue)

/-- load_cache (main.py lines 609-621): empty list when the file is
missing, and the try/except maps every raised exception to the empty
list. -/
def load_cache (fs : FileState) : List LoadedRec :=
  match fs with
  | .missing => []
  | .badJson => []
  | .json v =>
    match loadCacheBody v with
    | .ok recs => recs
    | .error _ => []

/-- JSON serialization of an optional string field. -/
def optJson : Option String → PyValue
  | none => .null
  | some s => .str s

/-- The dict save_cache writes for one post: the post fields in
insertion order, pubDate replaced by its isoformat string. -/
def postToJson (p : Post PyDateTime) : PyValue :=
  .obj [("title", .str p.title), ("description", .str p.description),
        ("link", .str p.link), ("guid", .str p.guid),
        ("pubDate", .str (isoformat p.pubDate)),
        ("image", optJson p.image), ("video", optJson p.video),
        ("media_type", optJson p.media_type)]

/-- save_cache (main.py lines 600-607): the JSON value written to the
cache file. -/
def save_cache (ps : List (Post PyDateTime)) : PyValue :=
  .arr (ps.map postToJson)

/-- The loaded record a post should reload as: every field value
unchanged, pubDate an exact datetime again. -/
def loadedOfPost (p : Post PyDateTime) : LoadedRec :=
  [("title", .v (.str p.title)), ("description", .v (.str p.description)),
   ("link", .v (.str p.link)), ("guid", .v (.str p.guid)),
   ("pubDate", .dt p.pubDate),
   ("image", .v (optJson p.image)), ("video", .v (optJson p.video)),
   ("media_type", .v (optJson p.media_type))]

/-- Field bounds under which the fixed-width isoformat rendering is
faithful; every datetime the datetime library constructs satisfies
them. -/
def validDT (dt : PyDateTime) : Prop :=
  dt.year < 10000 ∧ dt.month < 100 ∧ dt.day < 100 ∧ dt.hour < 100 ∧
    dt.minute < 100 ∧ dt.second < 100 ∧ dt.microsecond < 1000000 ∧
    dt.tzHour < 100 ∧ dt.tzMin < 100

instance : DecidablePred validDT := fun dt => by
  unfold validDT; infer_instance

/-! ### Structural lemmas about the per-block pipeline -/

/-- Every emitted post carries the body text, media-resolution fields
and timestamp of its block, and its body passed the minimum-length
gate. -/
lemma processBlock_some {pageUrl pageName : String} {i : Nat} {cap : Int} {b : Block} {p : Post Int}
    (h : processBlock pageUrl pageName i cap b = some p) :
    p.description = extractBody b pageName ∧
    5 ≤ (extractBody b pageName).length ∧
    p.image = (resolveMedia b).image ∧
    p.video = (resolveMedia b).video ∧
    p.media_type = (resolveMedia b).mtype := by
  unfold processBlock at h
  split at h
  · exact absurd h (by simp)
  split at h
  · exact absurd h (by simp)
  split at h
  · exact absurd h (by simp)
  next hlen =>
    obtain rfl := Option.some_injective _ h.symm
    refine ⟨rfl, by omega, rfl, rfl, rfl⟩

/-- The possible shapes of a media resolution: the video triple, an
image with a present URL, or no media at all. -/
lemma resolveMedia_cases (b : Block) :
    resolveMedia b = ⟨videoThumbOf b, videoUrlOf b, some "video"⟩ ∨
    (∃ s, resolveMedia b = ⟨some s, none, some "image"⟩) ∨
    resolveMedia b = ⟨none, none, none⟩ := by
  unfold resolveMedia imageS1 imageS2 imageS3
  by_cases hv : b.hasVideoElement
  · simp [hv]
  · simp only [hv, if_false, Bool.false_eq_true]
    rcases hf : b.feedImageSrc with _ | s1
    · rcases hp : b.photoImgSrc with _ | s2
      · rcases hi : (b.imgs.find? goodImg).bind (fun im => im.src) with _ | s3
        · right; right; rfl
        · right; left; exact ⟨s3, rfl⟩
      · by_cases h2 : pyStartsWith s2 "http" = true
        · right; left; exact ⟨s2, by simp [h2]⟩
        · rcases hi : (b.imgs.find? goodImg).bind (fun im => im.src) with _ | s3
          · right; right; simp [h2, hi]
          · right; left; exact ⟨s3, by simp [h2, hi]⟩
    · by_cases h1 : pyStartsWith s1 "http" = true
      · right; left; exact ⟨s1, by simp [h1]⟩
      · rcases hp : b.photoImgSrc with _ | s2
        · rcases hi : (b.imgs.find? goodImg).bind (fun im => im.src) with _ | s3
          · right; right; simp [h1, hi]
          · right; left; exact ⟨s3, by simp [h1, hi]⟩
        · by_cases h2 : pyStartsWith s2 "http" = true
          · right; left; exact ⟨s2, by simp [h1, h2]⟩
          · rcases hi : (b.imgs.find? goodImg).bind (fun im => im.src) with _ | s3
            · right; right; simp [h1, h2, hi]
            · right; left; exact ⟨s3, by simp [h1, h2, hi]⟩

/-! ### Claim C3: footer-marker truncation -/

/-- A block exercising the fallback body-extraction path on the
specified text: no message selector matches. -/
def c3Block : Block :=
  { hasReplyIndicator := false, ariaLabel := none,
    msgTexts := [],
    fullText := "Hello world! All reactions: 12 Comments",
    primaryLinkHref := none, fbLinkHrefs := [],
    hasVideoElement := false, videoId := none, ytdlpLines := none,
    videoSrc := none, poster := none, feedImageSrc := none,
    photoImgSrc := none, imgs := [] }

/-- C3: on a block whose full text is
"Hello world! All reactions: 12 Comments" and whose message selectors
all fail, the fallback extraction truncates at the earliest footer
marker, cleans the lines, normalizes whitespace, and the assembled
description is exactly "Hello world!". -/
theorem c3_footer_truncation :
    fallbackExtract "Hello world! All reactions: 12 Comments" = "Hello world!" ∧
    pyNormalize (fallbackExtract "Hello world! All reactions: 12 Comments") = "Hello world!" ∧
    (processBlock "https://www.facebook.com/example" "Example Page" 0 0 c3Block).map
        Post.description = some "Hello world!" := by
  refine ⟨by decide, by decide, by decide⟩

/-! ### Claim C4: comment rejection -/

/-- C4: a block with a reply affordance, or whose accessible label
mentions "comment" (case-insensitively), never yields a post. -/
theorem c4_comment_rejection (pageUrl pageName : String) (i : Nat) (cap : Int) (b : Block)
    (h : b.hasReplyIndicator = true ∨
         ∃ l, b.ariaLabel = some l ∧ pyContains (pyLower l) "comment" = true) :
    processBlock pageUrl pageName i cap b = none := by
  rcases h with hr | ⟨l, hl, hc⟩
  · simp [processBlock, hr]
  · by_cases hr : b.hasReplyIndicator <;> simp [processBlock, hr, hl, hc]

/-- C4 witness: a concrete comment-like block (reply affordance
present) is rejected. -/
def c4Block : Block :=
  { hasReplyIndicator := true, ariaLabel := some "Comment by Some User",
    msgTexts := [some "A reply that looks like a post body"],
    fullText := "A reply that looks like a post body",
    primaryLinkHref := none, fbLinkHrefs := [],
    hasVideoElement := false, videoId := none, ytdlpLines := none,
    videoSrc := none, poster := none, feedImageSrc := none,
    photoImgSrc := none, imgs := [] }

theorem c4_comment_rejection_witness :
    processBlock "https://www.facebook.com/example" "Example Page" 0 0 c4Block = none :=
  c4_comment_rejection _ _ _ _ _ (Or.inl rfl)

/-! ### Claim C5: minimum description length, absence, determinism -/

/-- C5: every post in the assembler output has a description of at
least 5 characters; a block whose cleaned body is shorter than 5
characters yields no post; and extraction is a pure function of its
input, so re-running it on identical input reproduces the output. -/
theorem c5_min_length :
    (∀ (pageUrl pageName : String) (cap : Int) (mp : Nat) (blocks : List Block) (p : Post Int),
        p ∈ extract_posts pageUrl pageName cap mp blocks → 5 ≤ p.description.length) ∧
    (∀ (pageUrl pageName : String) (i : Nat) (cap : Int) (b : Block),
        (extractBody b pageName).length < 5 → processBlock pageUrl pageName i cap b = none) ∧
    (∀ (pageUrl pageName : String) (cap : Int) (mp : Nat) (blocks blocks' : List Block),
        blocks = blocks' →
        extract_posts pageUrl pageName cap mp blocks = extract_posts pageUrl pageName cap mp blocks') := by
  refine ⟨?_, ?_, ?_⟩
  · intro pageUrl pageName cap mp blocks p hp
    rw [extract_posts, List.mem_filterMap] at hp
    obtain ⟨ib, _, hb⟩ := hp
    obtain ⟨hdesc, hlen, -⟩ := processBlock_some hb
    rw [hdesc]; exact hlen
  · intro pageUrl pageName i cap b hshort
    simp only [processBlock, if_pos hshort]
    split
    · rfl
    split <;> rfl
  · intro _ _ _ _ _ _ h
    rw [h]

/-- A concrete surviving block for the C5 witness. -/
def c5Block : Block :=
  { hasReplyIndicator := false, ariaLabel := none,
    msgTexts := [some "A sufficiently long body text"],
    fullText := "A sufficiently long body text",
    primaryLinkHref := none, fbLinkHrefs := [],
    hasVideoElement := false, videoId := none, ytdlpLines := none,
    videoSrc := none, poster := none, feedImageSrc := none,
    photoImgSrc := none, imgs := [] }

/-- The post c5Block assembles to. -/
def c5Post : Post Int :=
  { title := "A sufficiently long body text",
    description := "A sufficiently long body text",
    link := "u", guid := "u#0_0", pubDate := 0,
    image := none, video := none, media_type := none }

theorem c5_min_length_witness : 5 ≤ c5Post.description.length :=
  c5_min_length.1 "u" "n" 0 10 [c5Block] c5Post (by decide)

/-! ### Claim C1: media exclusivity -/

/-- A block with a video element but no extractable video id and only a
blob: source: the code classifies it video yet resolves no video
URL. -/
def c1Block : Block :=
  { hasReplyIndicator := false, ariaLabel := none,
    msgTexts := [some "A lovely sample video post body"],
    fullText := "A lovely sample video post body",
    primaryLinkHref := none, fbLinkHrefs := [],
    hasVideoElement := true, videoId := none, ytdlpLines := none,
    videoSrc := some "blob:https://www.facebook.com/abc",
    poster := some "https://scontent.example/poster.jpg",
    feedImageSrc := none, photoImgSrc := none, imgs := [] }

/-- The post c1Block assembles to. -/
def c1Post : Post Int :=
  { title := "A lovely sample video post body",
    description := "A lovely sample video post body",
    link := "https://www.facebook.com/example",
    guid := "https://www.facebook.com/example#0_0",
    pubDate := 0,
    image := some "https://scontent.example/poster.jpg",
    video := none, media_type := some "video" }

/-- C1 counterexample: an assembled post with mediaKind video and a
null videoUrl, refuting the clause that mediaKind video implies a
non-null videoUrl. -/
theorem c1_counterexample :
    (processBlock "https://www.facebook.com/example" "Example Page" 0 0 c1Block).map
        (fun p => (p.media_type, p.video)) = some (some "video", none) := by
  decide

/-- C1 amended: for every assembled post, exactly one mediaKind holds
(none, image or video); mediaKind video implies imageUrl is exactly the
thumbnail resolution of the block (hence null or a thumbnail), but
videoUrl may be null; mediaKind image implies imageUrl non-null and
videoUrl null; videoUrl is set only when mediaKind is video; and no
mediaKind implies no media URLs at all. -/
theorem c1_media_exclusivity_amended (pageUrl pageName : String) (i : Nat) (cap : Int)
    (b : Block) (p : Post Int) (h : processBlock pageUrl pageName i cap b = some p) :
    (p.media_type = none ∨ p.media_type = some "image" ∨ p.media_type = some "video") ∧
    (p.media_type = some "video" → p.image = videoThumbOf b) ∧
    (p.media_type = some "image" → p.image.isSome ∧ p.video = none) ∧
    (p.video.isSome → p.media_type = some "video") ∧
    (p.media_type = none → p.image = none ∧ p.video = none) := by
  obtain ⟨-, -, himg, hvid, hmt⟩ := processBlock_some h
  rcases resolveMedia_cases b with hm | ⟨s, hm⟩ | hm <;>
    rw [hm] at himg hvid hmt <;> simp_all

theorem c1_media_exclusivity_amended_witness :
    (c1Post.media_type = none ∨ c1Post.media_type = some "image" ∨
      c1Post.media_type = some "video") ∧
    (c1Post.media_type = some "video" → c1Post.image = videoThumbOf c1Block) ∧
    (c1Post.media_type = some "image" → c1Post.image.isSome ∧ c1Post.video = none) ∧
    (c1Post.video.isSome → c1Post.media_type = some "video") ∧
    (c1Post.media_type = none → c1Post.image = none ∧ c1Post.video = none) :=
  c1_media_exclusivity_amended "https://www.facebook.com/example" "Example Page" 0 0
    c1Block c1Post (by decide)

/-! ### Claim C8: noise-image rejection -/

/-- A block whose feed-image marker carries a denylisted avatar URL
while the block-wide scan holds a qualifying full-size photo. -/
def c8Block : Block :=
  { hasReplyIndicator := false, ariaLabel := none,
    msgTexts := [some "An image post with a noisy feed image"],
    fullText := "An image post with a noisy feed image",
    primaryLinkHref := none, fbLinkHrefs := [],
    hasVideoElement := false, videoId := none, ytdlpLines := none,
    videoSrc := none, poster := none,
    feedImageSrc := some "https://scontent.example/p50x50/avatar.jpg",
    photoImgSrc := none,
    imgs := [{ src := some "https://scontent.example/full_photo.jpg",
               width := some "720", height := some "540", insideSvg := false }] }

/-- C8 counterexample: strategy 1 selects the denylisted avatar URL
even though a qualifying non-noise image exists in the same block,
refuting the claim for the feed-image strategy. -/
theorem c8_counterexample :
    resolveMedia c8Block =
      ⟨some "https://scontent.example/p50x50/avatar.jpg", none, some "image"⟩ ∧
    pyContains "https://scontent.example/p50x50/avatar.jpg" "p50x50" = true ∧
    "p50x50" ∈ noisePatterns ∧
    (c8Block.imgs.find? goodImg).isSome = true := by
  decide

/-- C8 amended: the denylist guarantee holds for the strategy-3 scan:
whenever the feed-image and photo-link strategies yield no http
candidate, a selected imageUrl contains no denylisted noise pattern.
(The feed-image and photo-link strategies themselves never consult the
denylist.) -/
lemma resolveMedia_eq_imageS3 (b : Block) (hv : b.hasVideoElement = false)
    (h1 : b.feedImageSrc.all (fun s => !(pyStartsWith s "http")) = true)
    (h2 : b.photoImgSrc.all (fun s => !(pyStartsWith s "http")) = true) :
    resolveMedia b = imageS3 b := by
  unfold resolveMedia imageS1 imageS2
  rw [if_neg (by simp [hv])]
  rcases hf : b.feedImageSrc with _ | s1 <;>
    simp only [hf, Option.all_some, Option.all_none, Bool.not_eq_true'] at h1 ⊢
  · rcases hp : b.photoImgSrc with _ | s2 <;>
      simp only [hp, Option.all_some, Option.all_none, Bool.not_eq_true'] at h2 ⊢
    rw [if_neg (by simp [h2])]
  · rw [if_neg (by simp [h1])]
    rcases hp : b.photoImgSrc with _ | s2 <;>
      simp only [hp, Option.all_some, Option.all_none, Bool.not_eq_true'] at h2 ⊢
    rw [if_neg (by simp [h2])]

theorem c8_noise_rejection_amended (b : Block) (url : String)
    (hv : b.hasVideoElement = false)
    (h1 : b.feedImageSrc.all (fun s => !(pyStartsWith s "http")) = true)
    (h2 : b.photoImgSrc.all (fun s => !(pyStartsWith s "http")) = true)
    (h : (resolveMedia b).image = some url) :
    ∀ pat ∈ noisePatterns, pyContains url pat = false := by
  rw [resolveMedia_eq_imageS3 b hv h1 h2] at h
  unfold imageS3 at h
  rcases hfind : b.imgs.find? goodImg with _ | im <;>
    simp only [hfind, Option.bind] at h
  · exact absurd h (by simp)
  · rcases hsrc : im.src with _ | s <;> simp only [hsrc] at h
    · exact absurd h (by simp)
    · have hs : s = url := by simpa using h
      have hg := List.find?_some hfind
      unfold goodImg at hg
      rw [hsrc] at hg
      simp only [Bool.and_eq_true, Bool.not_eq_true'] at hg
      obtain ⟨⟨⟨-, hnoise⟩, -⟩, -⟩ := hg
      intro pat hpat
      subst hs
      simpa using List.any_eq_false.mp hnoise pat hpat

/-- The qualifying image block for the C8 witness: no feed-image or
photo-link candidate, so the scan fires and selects a clean URL. -/
def c8CleanBlock : Block :=
  { hasReplyIndicator := false, ariaLabel := none,
    msgTexts := [some "An image post resolved by the scan"],
    fullText := "An image post resolved by the scan",
    primaryLinkHref := none, fbLinkHrefs := [],
    hasVideoElement := false, videoId := none, ytdlpLines := none,
    videoSrc := none, poster := none,
    feedImageSrc := none, photoImgSrc := none,
    imgs := [{ src := some "https://scontent.example/p50x50/tiny.jpg",
               width := none, height := none, insideSvg := false },
             { src := some "https://scontent.example/clean_photo.jpg",
               width := some "960", height := some "720", insideSvg := false }] }

theorem c8_noise_rejection_amended_witness :
    pyContains "https://scontent.example/clean_photo.jpg" "p50x50" = false :=
  c8_noise_rejection_amended c8CleanBlock "https://scontent.example/clean_photo.jpg"
    rfl rfl rfl (by decide) "p50x50" (by decide)

/-! ### Claim C2: timestamp parsing -/

/-- C2 counterexample: a block text containing the token 3h while an
earlier-priority day token is also present; the resolver parses the
days pattern first, so publishedAt is capture minus 2 days, not capture
minus 3 hours. -/
theorem c2_counterexample :
    pyContains "2d 3h" "3h" = true ∧
    resolveTimestamp "2d 3h" 0 0 ≠ 0 - 3 * 3600 ∧
    resolveTimestamp "2d 3h" 0 0 = 0 - 2 * 86400 := by
  refine ⟨by decide, by decide, by decide⟩

/-- C2 amended: the resolver obeys the fixed pattern priority (days
before hours before minutes before seconds before just-now).  When no
day token matches and the hours pattern captures 3, publishedAt is
capture time minus 3 hours; when no pattern matches at all,
publishedAt is capture time minus the position index in days.  The
resolver is total, so publishedAt is always non-null. -/
theorem c2_timestamp_amended :
    (∀ (text : String) (i : Nat) (cap : Int),
        searchDays text = none → searchHours text = some 3 →
        resolveTimestamp text i cap = cap - 3 * 3600) ∧
    (∀ (text : String) (i : Nat) (cap : Int),
        searchDays text = none → searchHours text = none → searchMinutes text = none →
        searchSeconds text = none → hasJustNow text = false →
        resolveTimestamp text i cap = cap - 86400 * (i : Int)) := by
  constructor
  · intro text i cap hd hh
    simp [resolveTimestamp, relTimeDelta, hd, hh]
    try ring
  · intro text i cap hd hh hm hs hj
    simp [resolveTimestamp, relTimeDelta, hd, hh, hm, hs, hj]

theorem c2_timestamp_amended_witness :
    resolveTimestamp "Hello world! 3h" 7 1000 = 1000 - 3 * 3600 ∧
    resolveTimestamp "No relative time here." 2 1000 = 1000 - 86400 * 2 :=
  ⟨c2_timestamp_amended.1 "Hello world! 3h" 7 1000 (by decide) (by decide),
   c2_timestamp_amended.2 "No relative time here." 2 1000
     (by decide) (by decide) (by decide) (by decide) (by decide)⟩

/-! ### Claim C9: null-video posts render as no-media posts -/

/-- C9: a post with media_type video but a null video URL gets no
enclosure and no media markup; its entry is identical to the entry of
the same post with no media at all. -/
theorem c9_null_video_rendering (p : Post Int)
    (hm : p.media_type = some "video") (hv : p.video = none) :
    renderEntry p = renderEntry { p with media_type := none } ∧
    (renderEntry p).enclosure = none ∧
    (renderEntry p).description = p.description := by
  unfold renderEntry
  rw [hm, hv]
  simp [pyTruthyO]

/-- A concrete video post whose video URL resolution failed. -/
def c9Post : Post Int :=
  { title := "A video post without a resolved URL",
    description := "A video post without a resolved URL",
    link := "https://www.facebook.com/example",
    guid := "https://www.facebook.com/example#0_0",
    pubDate := 0,
    image := some "https://scontent.example/poster.jpg",
    video := none, media_type := some "video" }

theorem c9_null_video_rendering_witness :
    renderEntry c9Post = renderEntry { c9Post with media_type := none } ∧
    (renderEntry c9Post).enclosure = none ∧
    (renderEntry c9Post).description = c9Post.description :=
  c9_null_video_rendering c9Post rfl rfl

/-! ### Claim C6: feed ordering -/

/-- The comparator of pySortedDesc yields a pairwise-descending
output. -/
lemma pySortedDesc_pairwise (ps : List (Post Int)) :
    List.Pairwise (fun a b : Post Int => b.pubDate ≤ a.pubDate) (pySortedDesc ps) := by
  have h := @List.sorted_mergeSort (Post Int) (fun a b => decide (b.pubDate ≤ a.pubDate))
    (fun a b c h1 h2 => by simp only [decide_eq_true_eq] at *; omega)
    (fun a b => by simpa using Int.le_total b.pubDate a.pubDate)
    ps
  exact h.imp (by intro a b hab; simpa using hab)

/-- pySortedDesc permutes its input. -/
lemma pySortedDesc_perm (ps : List (Post Int)) : (pySortedDesc ps).Perm ps :=
  List.mergeSort_perm ps _

/-- C6: the emitted entries are sorted by publishedAt descending, and
for three posts at capture times T, T minus one day and T minus two
days, any assembly order emits exactly the order T, T minus one day,
T minus two days. -/
theorem c6_feed_ordering :
    (∀ ps : List (Post Int),
        List.Pairwise (fun a b : Post Int => b.pubDate ≤ a.pubDate) (pySortedDesc ps) ∧
        (pySortedDesc ps).Perm ps ∧
        generate_rss ps = (pySortedDesc ps).map renderEntry) ∧
    (∀ (T : Int) (base : Post Int) (l : List (Post Int)),
        l.Perm [{ base with pubDate := T }, { base with pubDate := T - 86400 },
                { base with pubDate := T - 2 * 86400 }] →
        generate_rss l =
          [renderEntry { base with pubDate := T },
           renderEntry { base with pubDate := T - 86400 },
           renderEntry { base with pubDate := T - 2 * 86400 }]) := by
  constructor
  · intro ps
    exact ⟨pySortedDesc_pairwise ps, pySortedDesc_perm ps, rfl⟩
  · intro T base l hperm
    unfold generate_rss
    have hmain : pySortedDesc l =
        [{ base with pubDate := T }, { base with pubDate := T - 86400 },
         { base with pubDate := T - 2 * 86400 }] := by
      have hperm2 : (pySortedDesc l).Perm
          [{ base with pubDate := T }, { base with pubDate := T - 86400 },
           { base with pubDate := T - 2 * 86400 }] :=
        (pySortedDesc_perm l).trans hperm
      have hmem : ∀ q ∈ pySortedDesc l,
          q = { base with pubDate := T } ∨ q = { base with pubDate := T - 86400 } ∨
          q = { base with pubDate := T - 2 * 86400 } := by
        intro q hq
        have := hperm2.subset hq
        simpa using this
      have hnodup : (pySortedDesc l).Nodup := by
        refine hperm2.nodup_iff.mpr ?_
        simp [List.nodup_cons, Post.mk.injEq]
        omega
      have hstrict : List.Pairwise
          (fun a b : Post Int => b.pubDate < a.pubDate ∨ a = b) (pySortedDesc l) := by
        have hand := (pySortedDesc_pairwise l).and hnodup
        refine hand.imp_of_mem ?_
        intro a b ha hb hab
        rcases hab with ⟨hle, hne⟩
        rcases hmem a ha with rfl | rfl | rfl <;> rcases hmem b hb with rfl | rfl | rfl <;>
          simp_all [Post.mk.injEq] <;> omega
      have htarget : List.Pairwise
          (fun a b : Post Int => b.pubDate < a.pubDate ∨ a = b)
          [{ base with pubDate := T }, { base with pubDate := T - 86400 },
           { base with pubDate := T - 2 * 86400 }] := by
        simp [List.pairwise_cons]
      haveI : IsAntisymm (Post Int) (fun a b : Post Int => b.pubDate < a.pubDate ∨ a = b) := by
        constructor
        intro a b h1 h2
        rcases h1 with h1 | h1
        · rcases h2 with h2 | h2
          · omega
          · exact h2.symm
        · exact h1
      exact List.eq_of_perm_of_sorted hperm2 hstrict htarget
    rw [hmain]
    rfl

/-- A concrete base post for the C6 witness. -/
def c6Base : Post Int :=
  { title := "A feed ordering test post",
    description := "A feed ordering test post",
    link := "https://www.facebook.com/example",
    guid := "https://www.facebook.com/example#0_0",
    pubDate := 0,
    image := none, video := none, media_type := none }

theorem c6_feed_ordering_witness :
    generate_rss [{ c6Base with pubDate := (1000000 : Int) - 86400 },
                  { c6Base with pubDate := (1000000 : Int) - 2 * 86400 },
                  { c6Base with pubDate := (1000000 : Int) }] =
      [renderEntry { c6Base with pubDate := (1000000 : Int) },
       renderEntry { c6Base with pubDate := (1000000 : Int) - 86400 },
       renderEntry { c6Base with pubDate := (1000000 : Int) - 2 * 86400 }] :=
  c6_feed_ordering.2 1000000 c6Base _ (by decide)

/-! ### Round-trip lemmas for the isoformat rendering -/

lemma toList_append (a b : String) : (a ++ b).toList = a.toList ++ b.toList := rfl

lemma digitVal_digitChar {d : Nat} (h : d < 10) : digitVal (Nat.digitChar d) = some d := by
  interval_cases d <;> decide

lemma isPyDigit_digitChar {d : Nat} (h : d < 10) : isPyDigit (Nat.digitChar d) = true := by
  interval_cases d <;> decide

lemma toNat_digitChar {d : Nat} (h : d < 10) : (Nat.digitChar d).toNat = 48 + d := by
  interval_cases d <;> decide

lemma read2_pad2 {n : Nat} (h : n < 100) (rest : List Char) :
    read2 ((pad2 n).data ++ rest) = some (n, rest) := by
  have h1 : n / 10 % 10 < 10 := Nat.mod_lt _ (by norm_num)
  have h2 : n % 10 < 10 := Nat.mod_lt _ (by norm_num)
  simp [pad2, read2, digitVal_digitChar h1, digitVal_digitChar h2]
  omega

lemma read4_pad4 {n : Nat} (h : n < 10000) (rest : List Char) :
    read4 ((pad4 n).data ++ rest) = some (n, rest) := by
  have h1 : n / 1000 % 10 < 10 := Nat.mod_lt _ (by norm_num)
  have h2 : n / 100 % 10 < 10 := Nat.mod_lt _ (by norm_num)
  have h3 : n / 10 % 10 < 10 := Nat.mod_lt _ (by norm_num)
  have h4 : n % 10 < 10 := Nat.mod_lt _ (by norm_num)
  simp [pad4, read4, digitVal_digitChar h1, digitVal_digitChar h2,
        digitVal_digitChar h3, digitVal_digitChar h4]
  omega

lemma readFrac_pad6 {n : Nat} (h : n < 1000000) {c : Char} (hc : isPyDigit c = false)
    (rest : List Char) :
    readFrac ('.' :: ((pad6 n).data ++ c :: rest)) = some (n, c :: rest) := by
  have h1 : n / 100000 % 10 < 10 := Nat.mod_lt _ (by norm_num)
  have h2 : n / 10000 % 10 < 10 := Nat.mod_lt _ (by norm_num)
  have h3 : n / 1000 % 10 < 10 := Nat.mod_lt _ (by norm_num)
  have h4 : n / 100 % 10 < 10 := Nat.mod_lt _ (by norm_num)
  have h5 : n / 10 % 10 < 10 := Nat.mod_lt _ (by norm_num)
  have h6 : n % 10 < 10 := Nat.mod_lt _ (by norm_num)
  simp [pad6, readFrac, List.takeWhile_cons, isPyDigit_digitChar, h1, h2, h3, h4, h5, h6,
        hc, digitsVal, toNat_digitChar]
  omega

lemma isoformat_data (dt : PyDateTime) :
    (isoformat dt).data =
      (pad4 dt.year).data ++ '-' :: ((pad2 dt.month).data ++ '-' :: ((pad2 dt.day).data
      ++ 'T' :: ((pad2 dt.hour).data ++ ':' :: ((pad2 dt.minute).data
      ++ ':' :: ((pad2 dt.second).data
      ++ ((if dt.microsecond == 0 then [] else '.' :: (pad6 dt.microsecond).data)
      ++ ((if dt.tzNeg then '-' else '+') :: ((pad2 dt.tzHour).data
      ++ ':' :: (pad2 dt.tzMin).data)))))))) := by
  unfold isoformat
  by_cases hm : dt.microsecond == 0 <;> by_cases ht : dt.tzNeg <;>
    simp [hm, ht, String.data_append, List.append_assoc]

/-- read2 at the very end of the input. -/
lemma read2_pad2_end {n : Nat} (h : n < 100) : read2 (pad2 n).data = some (n, []) := by
  simpa using read2_pad2 h []

/-- readFrac on input not starting with a dot. -/
lemma readFrac_nodot {c : Char} (hc : c ≠ '.') (r : List Char) :
    readFrac (c :: r) = some (0, c :: r) := by
  unfold readFrac
  split
  · rename_i r2 heq
    injection heq with h1 h2
    exact absurd h1 hc
  · rfl

set_option maxHeartbeats 1600000 in
/-- fromisoformat inverts isoformat on every datetime with in-range
fields. -/
theorem fromIso_isoformat (dt : PyDateTime) (h : validDT dt) :
    fromIso (isoformat dt) = some dt := by
  obtain ⟨y, mo, d, hr, mi, se, mic, neg, th, tm⟩ := dt
  obtain ⟨hy, hmo, hd, hhr, hmi, hse, hmic, hth, htm⟩ := h
  simp only at hy hmo hd hhr hmi hse hmic hth htm
  unfold fromIso
  simp only [String.toList]
  rw [isoformat_data]
  simp only
  rcases Bool.eq_false_or_eq_true neg with hneg | hneg <;> subst hneg <;>
    by_cases hm : mic == 0 <;>
    first
    | (have hm0 : mic = 0 := by simpa using hm
       subst hm0
       simp only [beq_self_eq_true, eq_self_iff_true, Bool.false_eq_true, if_true, if_false,
         reduceIte,
         List.nil_append, List.cons_append,
         List.append_assoc, Option.bind_eq_bind, Option.some_bind, expectCh,
         read4_pad4 hy, read2_pad2 hmo, read2_pad2 hd, read2_pad2 hhr, read2_pad2 hmi,
         read2_pad2 hse, read2_pad2 hth, read2_pad2_end htm,
         readFrac_nodot (by decide : ('+' : Char) ≠ '.'),
         readFrac_nodot (by decide : ('-' : Char) ≠ '.'),
         readOffset, List.isEmpty_nil]
       simp)
    | (simp only [hm, beq_self_eq_true, eq_self_iff_true, Bool.false_eq_true, if_true, if_false,
         reduceIte,
         List.nil_append, List.cons_append,
         List.append_assoc, Option.bind_eq_bind, Option.some_bind, expectCh,
         read4_pad4 hy, read2_pad2 hmo, read2_pad2 hd, read2_pad2 hhr, read2_pad2 hmi,
         read2_pad2 hse, read2_pad2 hth, read2_pad2_end htm,
         readFrac_pad6 hmic (by decide : isPyDigit '+' = false),
         readFrac_pad6 hmic (by decide : isPyDigit '-' = false),
         readFrac_nodot (by decide : ('+' : Char) ≠ '.'),
         readFrac_nodot (by decide : ('-' : Char) ≠ '.'),
         readOffset, List.isEmpty_nil]
       simp)

/-! ### Claim C7: cache round trip -/

lemma except_bind_ok {α β γ : Type} (a : α) (f : α → Except γ β) :
    (Except.ok a : Except γ α) >>= f = f a := rfl

lemma except_bind_error {α β γ : Type} (e : γ) (f : α → Except γ β) :
    (Except.error e : Except γ α) >>= f = Except.error e := rfl

lemma loadCacheBody_arr (xs : List PyValue) : loadCacheBody (.arr xs) = xs.mapM loadOne := rfl

/-- One saved record reloads to the same field values with the exact
datetime restored. -/
lemma loadOne_postToJson (p : Post PyDateTime) (h : validDT p.pubDate) :
    loadOne (postToJson p) = .ok (loadedOfPost p) := by
  unfold loadOne postToJson dictGetLast loadedOfPost
  simp [fromIso_isoformat _ h]

lemma mapM_loadOne (ps : List (Post PyDateTime)) (h : ∀ p ∈ ps, validDT p.pubDate) :
    (ps.map postToJson).mapM loadOne = Except.ok (ps.map loadedOfPost) := by
  induction ps with
  | nil => rfl
  | cons p t ih =>
    simp only [List.map_cons, List.mapM_cons]
    rw [loadOne_postToJson p (h p (by simp))]
    rw [ih (fun q hq => h q (by simp [hq]))]
    rfl

/-- C7: saving a post collection to the cache and loading it back
reproduces every record with identical field values and the timestamp
restored exactly (microsecond precision, hence at least to the
second). -/
theorem c7_cache_round_trip (ps : List (Post PyDateTime)) (h : ∀ p ∈ ps, validDT p.pubDate) :
    load_cache (.json (save_cache ps)) = ps.map loadedOfPost := by
  unfold load_cache save_cache
  dsimp only
  rw [loadCacheBody_arr, mapM_loadOne ps h]

/-- A concrete post for the C7 witness. -/
def c7Post : Post PyDateTime :=
  { title := "Cache round trip post",
    description := "Cache round trip post body",
    link := "https://www.facebook.com/example/posts/1",
    guid := "https://www.facebook.com/example/posts/1",
    pubDate := ⟨2024, 5, 6, 7, 8, 9, 123456, false, 0, 0⟩,
    image := some "https://scontent.example/img.jpg",
    video := none, media_type := some "image" }

theorem c7_cache_round_trip_witness :
    load_cache (.json (save_cache [c7Post])) = [loadedOfPost c7Post] :=
  c7_cache_round_trip [c7Post]
    (by intro p hp; rw [List.mem_singleton.mp hp]; decide)

/-! ### Claim C10: load_cache totality -/

/-- Does a record carry a loadable timestamp: a dict whose pubDate key
holds a string fromisoformat accepts. -/
def recHasValidTs (item : PyValue) : Bool :=
  match item with
  | .obj f =>
    match dictGetLast f "pubDate" with
    | some (.str s) => (fromIso s).isSome
    | _ => false
  | _ => false

/-- A record without a loadable timestamp makes its processing
raise. -/
lemma loadOne_error_of_invalid (item : PyValue) (h : recHasValidTs item = false) :
    ∃ e, loadOne item = .error e := by
  rcases item with _ | b | n | s | xs | f
  · exact ⟨.typeError, rfl⟩
  · exact ⟨.typeError, rfl⟩
  · exact ⟨.typeError, rfl⟩
  · exact ⟨.typeError, rfl⟩
  · exact ⟨.typeError, rfl⟩
  · rcases hd : dictGetLast f "pubDate" with _ | v
    · exact ⟨.keyError, by simp [loadOne, hd]⟩
    · rcases v with _ | b2 | n2 | s2 | xs2 | f2
      · exact ⟨.typeError, by simp [loadOne, hd]⟩
      · exact ⟨.typeError, by simp [loadOne, hd]⟩
      · exact ⟨.typeError, by simp [loadOne, hd]⟩
      · have hfi : fromIso s2 = none := by
          rcases hfi : fromIso s2 with _ | d
          · rfl
          · simp [recHasValidTs, hd, hfi] at h
        exact ⟨.valueError, by simp [loadOne, hd, hfi]⟩
      · exact ⟨.typeError, by simp [loadOne, hd]⟩
      · exact ⟨.typeError, by simp [loadOne, hd]⟩

/-- An unloadable record anywhere in the list makes the whole mapM
raise. -/
lemma mapM_loadOne_error {xs : List PyValue} {item : PyValue} (hm : item ∈ xs)
    (he : ∃ e, loadOne item = .error e) :
    ∃ e, xs.mapM loadOne = Except.error e := by
  induction xs with
  | nil => cases hm
  | cons a t ih =>
    rcases List.mem_cons.mp hm with rfl | hmem
    · obtain ⟨e, hee⟩ := he
      exact ⟨e, by simp only [List.mapM_cons, hee, except_bind_error]⟩
    · rcases ha : loadOne a with e2 | r
      · exact ⟨e2, by simp only [List.mapM_cons, ha, except_bind_error]⟩
      · obtain ⟨e3, h3⟩ := ih hmem
        exact ⟨e3, by
          simp only [List.mapM_cons, ha, h3, except_bind_ok, except_bind_error]⟩

/-- C10: load_cache returns the empty list when the file is missing,
when the file holds unparseable JSON, and whenever the record
processing raises (in particular when some record lacks a loadable
timestamp); it never raises, returning a list for every file state. -/
theorem c10_load_cache_total :
    load_cache .missing = [] ∧
    load_cache .badJson = [] ∧
    (∀ (v : PyValue) (e : PyErr), loadCacheBody v = .error e → load_cache (.json v) = []) ∧
    (∀ (xs : List PyValue) (item : PyValue), item ∈ xs → recHasValidTs item = false →
        load_cache (.json (.arr xs)) = []) ∧
    (∀ fs : FileState, ∃ r : List LoadedRec, load_cache fs = r) := by
  refine ⟨rfl, rfl, ?_, ?_, fun fs => ⟨load_cache fs, rfl⟩⟩
  · intro v e he
    unfold load_cache
    dsimp only
    rw [he]
  · intro xs item hm hbad
    obtain ⟨e, he⟩ := mapM_loadOne_error hm (loadOne_error_of_invalid item hbad)
    unfold load_cache
    dsimp only
    rw [loadCacheBody_arr, he]

theorem c10_load_cache_total_witness :
    load_cache (.json (.arr [.obj [("pubDate", .str "not-a-timestamp")]])) = [] :=
  c10_load_cache_total.2.2.2.1 [.obj [("pubDate", .str "not-a-timestamp")]]
    (.obj [("pubDate", .str "not-a-timestamp")]) (List.mem_singleton.mpr rfl) rfl

end FBScraper
